import Mathlib

/-!
A shallow embedding of `src/orbit_zoom_camera.rs` from the
`camera_controllers` crate: a 3dsMax / Blender style camera that orbits
about a target position.  Scalars of the generic float type `T` are
modelled by `ℚ`; the trigonometric functions used by the external
quaternion library's `axis_angle` are kept abstract as a `Trig` record,
since no claim depends on their values.
-/

namespace CameraControllers

/-- 3-vector over the scalar type, mirroring `vecmath::Vector3<T>`. -/
structure Vector3 where
  x : ℚ
  y : ℚ
  z : ℚ
deriving DecidableEq, Repr

/-- `vecmath::vec3_add`. -/
def vec3_add (a b : Vector3) : Vector3 := ⟨a.x + b.x, a.y + b.y, a.z + b.z⟩

/-- `vecmath::vec3_scale`. -/
def vec3_scale (v : Vector3) (s : ℚ) : Vector3 := ⟨v.x * s, v.y * s, v.z * s⟩

/-- `vecmath::vec3_cross`. -/
def vec3_cross (a b : Vector3) : Vector3 :=
  ⟨a.y * b.z - a.z * b.y, a.z * b.x - a.x * b.z, a.x * b.y - a.y * b.x⟩

/-- `vecmath::vec3_dot`. -/
def vec3_dot (a b : Vector3) : ℚ := a.x * b.x + a.y * b.y + a.z * b.z

/-- `quaternion::Quaternion<T>`: a scalar part and a vector part. -/
structure Quaternion where
  s : ℚ
  v : Vector3
deriving DecidableEq, Repr

/-- `quaternion::id()`: the identity quaternion `(1, [0,0,0])`. -/
def Quaternion.qid : Quaternion := ⟨1, ⟨0, 0, 0⟩⟩

/-- `quaternion::mul(a, b)` from the external quaternion crate. -/
def Quaternion.qmul (a b : Quaternion) : Quaternion :=
  ⟨a.s * b.s - vec3_dot a.v b.v,
   vec3_add (vec3_add (vec3_scale b.v a.s) (vec3_scale a.v b.s)) (vec3_cross a.v b.v)⟩

/-- `quaternion::rotate_vector(q, v)` from the external quaternion crate:
`t = 2 * cross(q.1, v); v + t * q.0 + cross(q.1, t)`. -/
def rotate_vector (q : Quaternion) (v : Vector3) : Vector3 :=
  let t := vec3_scale (vec3_cross q.v v) 2
  vec3_add (vec3_add v (vec3_scale t q.s)) (vec3_cross q.v t)

/-- Abstract sine/cosine, used only by `axis_angle`; no claim depends on
their values, so they are parameters of the embedding. -/
structure Trig where
  sin : ℚ → ℚ
  cos : ℚ → ℚ

/-- `quaternion::axis_angle(axis, angle)`: `(cos(angle/2), axis * sin(angle/2))`. -/
def axis_angle (tr : Trig) (axis : Vector3) (angle : ℚ) : Quaternion :=
  ⟨tr.cos (angle / 2), vec3_scale axis (tr.sin (angle / 2))⟩

/-- `input::MouseButton` (the subset of variants; compared by equality only). -/
inductive MouseButton where
  | Unknown | Left | Right | Middle | X1 | X2 | Button6 | Button7 | Button8
deriving DecidableEq, Repr

/-- `input::Key`: an opaque key identifier compared by equality only. -/
structure Key where
  code : ℕ
deriving DecidableEq, Repr

/-- `input::Key::LShift` (identified only by its distinct code). -/
def Key.LShift : Key := ⟨1073742049⟩

/-- `input::Button`: a keyboard key or a mouse button (the `Controller`
variant stands for the remaining, never-matching variants). -/
inductive Button where
  | Keyboard (k : Key)
  | Mouse (m : MouseButton)
  | Controller (id : ℕ)
deriving DecidableEq, Repr

/-- The `Mode: u8` bitflags: three button-held flags and three
modifier-held flags, one pair per action. -/
@[ext]
structure Mode where
  orbitButton : Bool
  zoomButton : Bool
  panButton : Bool
  orbitMod : Bool
  zoomMod : Bool
  panMod : Bool
deriving DecidableEq, Repr

namespace Mode

/-- `Mode::empty()`. -/
def emptyMode : Mode := ⟨false, false, false, false, false, false⟩

/-- The `ORBIT_BUTTON` flag. -/
def ORBIT_BUTTON : Mode := ⟨true, false, false, false, false, false⟩

/-- The `ZOOM_BUTTON` flag. -/
def ZOOM_BUTTON : Mode := ⟨false, true, false, false, false, false⟩

/-- The `PAN_BUTTON` flag. -/
def PAN_BUTTON : Mode := ⟨false, false, true, false, false, false⟩

/-- The `ORBIT_MOD` flag. -/
def ORBIT_MOD : Mode := ⟨false, false, false, true, false, false⟩

/-- The `ZOOM_MOD` flag. -/
def ZOOM_MOD : Mode := ⟨false, false, false, false, true, false⟩

/-- The `PAN_MOD` flag. -/
def PAN_MOD : Mode := ⟨false, false, false, false, false, true⟩

/-- Bitwise or `a | b` of two flag sets. -/
def union (a b : Mode) : Mode :=
  ⟨a.orbitButton || b.orbitButton, a.zoomButton || b.zoomButton,
   a.panButton || b.panButton, a.orbitMod || b.orbitMod,
   a.zoomMod || b.zoomMod, a.panMod || b.panMod⟩

/-- Bitwise and `a & b` of two flag sets. -/
def inter (a b : Mode) : Mode :=
  ⟨a.orbitButton && b.orbitButton, a.zoomButton && b.zoomButton,
   a.panButton && b.panButton, a.orbitMod && b.orbitMod,
   a.zoomMod && b.zoomMod, a.panMod && b.panMod⟩

/-- `bitflags` `contains`: every flag of `b` is set in `a`
(`a.bits & b.bits == b.bits`). -/
def contains (a b : Mode) : Bool :=
  (!b.orbitButton || a.orbitButton) && (!b.zoomButton || a.zoomButton) &&
  (!b.panButton || a.panButton) && (!b.orbitMod || a.orbitMod) &&
  (!b.zoomMod || a.zoomMod) && (!b.panMod || a.panMod)

/-- `bitflags` `insert`: `a.bits |= b.bits`. -/
def insert (a b : Mode) : Mode := union a b

/-- `bitflags` `remove`: `a.bits &= !b.bits`. -/
def remove (a b : Mode) : Mode :=
  ⟨a.orbitButton && !b.orbitButton, a.zoomButton && !b.zoomButton,
   a.panButton && !b.panButton, a.orbitMod && !b.orbitMod,
   a.zoomMod && !b.zoomMod, a.panMod && !b.panMod⟩

end Mode

/-- `OrbitZoomCameraSettings<T>`: key bindings and speed modifiers. -/
structure OrbitZoomCameraSettings where
  orbit_button : MouseButton
  zoom_button : MouseButton
  pan_button : MouseButton
  orbit_mod : Option Key
  zoom_mod : Option Key
  pan_mod : Option Key
  scroll_mode : Mode
  orbit_speed : ℚ
  pitch_speed : ℚ
  pan_speed : ℚ
  zoom_speed : ℚ
deriving DecidableEq, Repr

namespace OrbitZoomCameraSettings

/-- `OrbitZoomCameraSettings::default()`: left-drag orbits, right-drag
zooms, LShift+left-drag pans, scroll zooms. -/
def default : OrbitZoomCameraSettings where
  orbit_button := MouseButton.Left
  zoom_button := MouseButton.Right
  pan_button := MouseButton.Left
  orbit_mod := none
  zoom_mod := none
  pan_mod := some Key.LShift
  scroll_mode := Mode.ZOOM_BUTTON
  orbit_speed := mkRat 1 20
  pitch_speed := mkRat 1 10
  pan_speed := mkRat 1 10
  zoom_speed := mkRat 1 10

end OrbitZoomCameraSettings

/-- The external `Camera` sink.  Modelled from the spec: the camera object
type lives outside `src/` (external collaborator); per the spec it is "a
value type constructible from a 3-vector position and settable with a
unit-quaternion orientation", treated as an opaque output record. -/
structure Camera where
  position : Vector3
  rotation : Quaternion
deriving DecidableEq, Repr

/-- Modelled from the spec: `Camera::new(position)` constructs the camera
sink at the given position with the default (identity) orientation. -/
def Camera.new (position : Vector3) : Camera := ⟨position, Quaternion.qid⟩

/-- Modelled from the spec: `Camera::set_rotation` replaces the camera
sink's orientation. -/
def Camera.set_rotation (c : Camera) (rotation : Quaternion) : Camera :=
  { c with rotation := rotation }

/-- `OrbitZoomCamera<T>`: the controller state. -/
structure OrbitZoomCamera where
  target : Vector3
  rotation : Quaternion
  pitch : ℚ
  yaw : ℚ
  distance : ℚ
  distance_near_limit : ℚ
  distance_far_limit : ℚ
  settings : OrbitZoomCameraSettings
  mode : Mode
deriving DecidableEq, Repr

namespace OrbitZoomCamera

/-- `OrbitZoomCamera::new(target, settings)`: if there is no modifier
button, assume it is as if the button is always pressed. -/
def new (target : Vector3) (settings : OrbitZoomCameraSettings) : OrbitZoomCamera :=
  let mode0 := Mode.emptyMode
  let mode1 := if settings.orbit_mod = none then Mode.union mode0 Mode.ORBIT_MOD else mode0
  let mode2 := if settings.zoom_mod = none then Mode.union mode1 Mode.ZOOM_MOD else mode1
  let mode3 := if settings.pan_mod = none then Mode.union mode2 Mode.PAN_MOD else mode2
  { target := target
    rotation := Quaternion.qid
    distance := 10
    distance_near_limit := mkRat 1 10
    distance_far_limit := 1000
    pitch := 0
    yaw := 0
    mode := mode3
    settings := settings }

/-- `OrbitZoomCamera::camera(dt)`: return a `Camera` for the current
configuration (`dt` is accepted but unused). -/
def camera (c : OrbitZoomCamera) (_dt : ℚ) : Camera :=
  let target_to_camera := rotate_vector c.rotation ⟨0, 0, c.distance⟩
  let cam := Camera.new (vec3_add c.target target_to_camera)
  Camera.set_rotation cam c.rotation

/-- `rotation_from_yaw_and_pitch`: yaw about the world up axis composed
with pitch about the world right axis. -/
def rotation_from_yaw_and_pitch (tr : Trig) (yaw pitch : ℚ) : Quaternion :=
  Quaternion.qmul (axis_angle tr ⟨0, 1, 0⟩ yaw) (axis_angle tr ⟨1, 0, 0⟩ pitch)

/-- `OrbitZoomCamera::init()`: recompute `rotation` from `yaw`/`pitch`. -/
def init (tr : Trig) (c : OrbitZoomCamera) : OrbitZoomCamera :=
  { c with rotation := rotation_from_yaw_and_pitch tr c.yaw c.pitch }

/-- `is_orbit`: `mode.contains(ORBIT_BUTTON | ORBIT_MOD)`. -/
def is_orbit (c : OrbitZoomCamera) : Bool :=
  Mode.contains c.mode (Mode.union Mode.ORBIT_BUTTON Mode.ORBIT_MOD)

/-- `is_zoom`: `mode.contains(ZOOM_BUTTON | ZOOM_MOD)`. -/
def is_zoom (c : OrbitZoomCamera) : Bool :=
  Mode.contains c.mode (Mode.union Mode.ZOOM_BUTTON Mode.ZOOM_MOD)

/-- `is_pan`: `mode.contains(PAN_BUTTON | PAN_MOD)`. -/
def is_pan (c : OrbitZoomCamera) : Bool :=
  Mode.contains c.mode (Mode.union Mode.PAN_BUTTON Mode.PAN_MOD)

/-- `OrbitZoomCamera::control_camera(dx, dy)`: pan, else zoom, else orbit,
else do nothing. -/
def control_camera (tr : Trig) (c : OrbitZoomCamera) (dx dy : ℚ) : OrbitZoomCamera :=
  if c.is_pan then
    let dx := dx * c.settings.pan_speed * c.distance
    let dy := dy * c.settings.pan_speed * c.distance
    let right := rotate_vector c.rotation ⟨1, 0, 0⟩
    let up := rotate_vector c.rotation ⟨0, 1, 0⟩
    { c with target := vec3_add (vec3_add c.target (vec3_scale up dy)) (vec3_scale right dx) }
  else if c.is_zoom then
    let new_dist := c.distance + dy * c.settings.zoom_speed * c.distance
    { c with distance :=
        if new_dist > c.distance_far_limit then c.distance_far_limit
        else if new_dist < c.distance_near_limit then c.distance_near_limit
        else new_dist }
  else if c.is_orbit then
    let dx := dx * c.settings.orbit_speed
    let dy := dy * c.settings.orbit_speed
    let yaw := c.yaw + dx
    let pitch := c.pitch + dy * c.settings.pitch_speed
    { c with yaw := yaw, pitch := pitch,
             rotation := rotation_from_yaw_and_pitch tr yaw pitch }
  else c

/-- `mod_key_pressed`: check the configured modifier of orbit, else zoom,
else pan (the `else` chains on whether the modifier is configured). -/
def mod_key_pressed (c : OrbitZoomCamera) : Bool :=
  match c.settings.orbit_mod with
  | some _ => Mode.contains c.mode Mode.ORBIT_MOD
  | none =>
    match c.settings.zoom_mod with
    | some _ => Mode.contains c.mode Mode.ZOOM_MOD
    | none =>
      match c.settings.pan_mod with
      | some _ => Mode.contains c.mode Mode.PAN_MOD
      | none => false

/-- The four event kinds delivered by the generic-event collaborator. -/
inductive Event where
  | MouseScroll (dx dy : ℚ)
  | MouseRelative (dx dy : ℚ)
  | Press (b : Button)
  | Release (b : Button)
deriving DecidableEq, Repr

/-- `OrbitZoomCamera::event`: respond to scroll, relative-motion and key
press/release events. -/
def event (tr : Trig) (c : OrbitZoomCamera) (e : Event) : OrbitZoomCamera :=
  match e with
  | Event.MouseScroll dx dy =>
    let pressed := mod_key_pressed c
    let restore := if pressed then false else !(Mode.contains c.mode c.settings.scroll_mode)
    let c1 := if pressed then c
              else { c with mode := Mode.insert c.mode c.settings.scroll_mode }
    let c2 := control_camera tr c1 dx dy
    if restore then { c2 with mode := Mode.remove c2.mode c2.settings.scroll_mode } else c2
  | Event.MouseRelative dx dy =>
    control_camera tr c (-dx) dy
  | Event.Press x =>
    let m := c.mode
    let m := if x = Button.Mouse c.settings.orbit_button then Mode.insert m Mode.ORBIT_BUTTON else m
    let m := if x = Button.Mouse c.settings.pan_button then Mode.insert m Mode.PAN_BUTTON else m
    let m := if x = Button.Mouse c.settings.zoom_button then Mode.insert m Mode.ZOOM_BUTTON else m
    let m := if some x = c.settings.orbit_mod.map Button.Keyboard then Mode.insert m Mode.ORBIT_MOD else m
    let m := if some x = c.settings.pan_mod.map Button.Keyboard then Mode.insert m Mode.PAN_MOD else m
    let m := if some x = c.settings.zoom_mod.map Button.Keyboard then Mode.insert m Mode.ZOOM_MOD else m
    { c with mode := m }
  | Event.Release x =>
    let m := c.mode
    let m := if x = Button.Mouse c.settings.orbit_button then Mode.remove m Mode.ORBIT_BUTTON else m
    let m := if x = Button.Mouse c.settings.pan_button then Mode.remove m Mode.PAN_BUTTON else m
    let m := if x = Button.Mouse c.settings.zoom_button then Mode.remove m Mode.ZOOM_BUTTON else m
    let m := if some x = c.settings.orbit_mod.map Button.Keyboard then Mode.remove m Mode.ORBIT_MOD else m
    let m := if some x = c.settings.pan_mod.map Button.Keyboard then Mode.remove m Mode.PAN_MOD else m
    let m := if some x = c.settings.zoom_mod.map Button.Keyboard then Mode.remove m Mode.ZOOM_MOD else m
    { c with mode := m }

end OrbitZoomCamera

/-- A concrete trig instance used only to evaluate witnesses. -/
def trig0 : Trig := ⟨fun _ => 0, fun _ => 1⟩

open OrbitZoomCamera

/-! ### Shared helper lemmas -/

/-- `control_camera` never changes the mode bitset. -/
theorem control_camera_mode (tr : Trig) (c : OrbitZoomCamera) (dx dy : ℚ) :
    (control_camera tr c dx dy).mode = c.mode := by
  simp only [control_camera]
  split_ifs <;> rfl

/-- `control_camera` never changes the settings. -/
theorem control_camera_settings (tr : Trig) (c : OrbitZoomCamera) (dx dy : ℚ) :
    (control_camera tr c dx dy).settings = c.settings := by
  simp only [control_camera]
  split_ifs <;> rfl

/-- On booleans, `a | b = a` whenever every bit of `b` is in `a`. -/
theorem bool_or_of_le : ∀ a b : Bool, ((!b || a) = true) → ((a || b) = a) := by decide

/-- On booleans, `(a | b) & !b = a` whenever `a & b = false`. -/
theorem bool_or_andnot_of_disjoint :
    ∀ a b : Bool, ((a && b) = false) → (((a || b) && !b) = a) := by decide

/-- On booleans, `(a | b) & !b = a & !b` unconditionally. -/
theorem bool_or_andnot : ∀ a b : Bool, (((a || b) && !b) = (a && !b)) := by decide

/-- A mode that contains `b` absorbs the union with `b`. -/
theorem mode_union_eq_left (a b : Mode) (h : Mode.contains a b = true) :
    Mode.union a b = a := by
  simp only [Mode.contains, Bool.and_eq_true] at h
  obtain ⟨⟨⟨⟨⟨h1, h2⟩, h3⟩, h4⟩, h5⟩, h6⟩ := h
  ext
  · exact bool_or_of_le _ _ h1
  · exact bool_or_of_le _ _ h2
  · exact bool_or_of_le _ _ h3
  · exact bool_or_of_le _ _ h4
  · exact bool_or_of_le _ _ h5
  · exact bool_or_of_le _ _ h6

/-- Removing `b` right after inserting it into a disjoint mode restores it. -/
theorem mode_remove_union_of_disjoint (a b : Mode) (h : Mode.inter a b = Mode.emptyMode) :
    Mode.remove (Mode.union a b) b = a := by
  have h' := congrArg Mode.orbitButton h
  have h2 := congrArg Mode.zoomButton h
  have h3 := congrArg Mode.panButton h
  have h4 := congrArg Mode.orbitMod h
  have h5 := congrArg Mode.zoomMod h
  have h6 := congrArg Mode.panMod h
  simp only [Mode.inter, Mode.emptyMode] at h' h2 h3 h4 h5 h6
  ext
  · exact bool_or_andnot_of_disjoint _ _ h'
  · exact bool_or_andnot_of_disjoint _ _ h2
  · exact bool_or_andnot_of_disjoint _ _ h3
  · exact bool_or_andnot_of_disjoint _ _ h4
  · exact bool_or_andnot_of_disjoint _ _ h5
  · exact bool_or_andnot_of_disjoint _ _ h6

/-- Removing `b` right after inserting it removes `b` from the original. -/
theorem mode_remove_union (a b : Mode) :
    Mode.remove (Mode.union a b) b = Mode.remove a b := by
  ext <;> exact bool_or_andnot _ _

/-! ### C7 : camera derivation -/

/-- C7: `camera(dt)` is a pure query — its result does not depend on `dt`,
two calls with no mutation in between agree, the returned camera is
positioned at `target + rotate(rotation, [0,0,distance])`, and its
orientation equals the controller's `rotation`. -/
theorem camera_pure_query (c : OrbitZoomCamera) (dt dt2 : ℚ) :
    c.camera dt = c.camera dt2 ∧
    (c.camera dt).position = vec3_add c.target (rotate_vector c.rotation ⟨0, 0, c.distance⟩) ∧
    (c.camera dt).rotation = c.rotation :=
  ⟨rfl, rfl, rfl⟩

/-! ### C9 : documented default settings -/

/-- C9: the documented defaults bind orbit to the left button, zoom to the
right button, pan to the left button gated by the LShift pan modifier,
default scrolling to the zoom action, with speeds 0.05 / 0.1 / 0.1 / 0.1
and no modifier configured for orbit or zoom. -/
theorem default_settings_spec :
    OrbitZoomCameraSettings.default.orbit_button = MouseButton.Left ∧
    OrbitZoomCameraSettings.default.zoom_button = MouseButton.Right ∧
    OrbitZoomCameraSettings.default.pan_button = MouseButton.Left ∧
    OrbitZoomCameraSettings.default.pan_mod = some Key.LShift ∧
    OrbitZoomCameraSettings.default.orbit_mod = none ∧
    OrbitZoomCameraSettings.default.zoom_mod = none ∧
    OrbitZoomCameraSettings.default.scroll_mode = Mode.ZOOM_BUTTON ∧
    OrbitZoomCameraSettings.default.orbit_speed = 0.05 ∧
    OrbitZoomCameraSettings.default.pitch_speed = 0.1 ∧
    OrbitZoomCameraSettings.default.pan_speed = 0.1 ∧
    OrbitZoomCameraSettings.default.zoom_speed = 0.1 := by
  refine ⟨rfl, rfl, rfl, rfl, rfl, rfl, rfl, ?_, ?_, ?_, ?_⟩ <;>
    norm_num [OrbitZoomCameraSettings.default, Rat.mkRat_eq_divInt, Rat.divInt_eq_div]

/-! ### C4 : the modifier-held check -/

/-- C4: `mod_key_pressed` checks the configured modifier of orbit, then
zoom, then pan, short-circuiting at the first action whose modifier is
configured, and returns `false` when none is configured. -/
theorem mod_key_pressed_order (c : OrbitZoomCamera) :
    (c.settings.orbit_mod.isSome = true →
      c.mod_key_pressed = Mode.contains c.mode Mode.ORBIT_MOD) ∧
    (c.settings.orbit_mod = none → c.settings.zoom_mod.isSome = true →
      c.mod_key_pressed = Mode.contains c.mode Mode.ZOOM_MOD) ∧
    (c.settings.orbit_mod = none → c.settings.zoom_mod = none →
      c.settings.pan_mod.isSome = true →
      c.mod_key_pressed = Mode.contains c.mode Mode.PAN_MOD) ∧
    (c.settings.orbit_mod = none → c.settings.zoom_mod = none →
      c.settings.pan_mod = none → c.mod_key_pressed = false) := by
  cases horb : c.settings.orbit_mod <;>
    cases hzo : c.settings.zoom_mod <;>
      cases hpa : c.settings.pan_mod <;>
        simp [mod_key_pressed, horb, hzo, hpa]

/-- Concrete settings with an orbit modifier configured, for the C4 witness. -/
def settingsOrbitMod : OrbitZoomCameraSettings :=
  { OrbitZoomCameraSettings.default with orbit_mod := some ⟨7⟩ }

/-- Concrete controller state used by the C4 witness. -/
def cOrbitMod : OrbitZoomCamera :=
  OrbitZoomCamera.new ⟨0, 0, 0⟩ settingsOrbitMod

/-- Witness for C4 at a concrete configuration with an orbit modifier. -/
theorem mod_key_pressed_order_witness :
    cOrbitMod.settings.orbit_mod.isSome = true ∧
    cOrbitMod.mod_key_pressed = Mode.contains cOrbitMod.mode Mode.ORBIT_MOD :=
  ⟨by decide, (mod_key_pressed_order cOrbitMod).1 (by decide)⟩

/-! ### C1 : fixed total priority pan > zoom > orbit -/

/-- C1: `control_camera` applies exactly one action, chosen by the fixed
total priority pan over zoom over orbit; when pan is active only the pan
effect occurs (target updated, everything else unchanged) even if zoom and
orbit are active; otherwise zoom, otherwise orbit, otherwise the state is
left entirely unchanged. -/
theorem control_camera_priority (tr : Trig) (c : OrbitZoomCamera) (dx dy : ℚ) :
    (c.is_pan = true →
      control_camera tr c dx dy =
        { c with
            target :=
              vec3_add
                (vec3_add c.target
                  (vec3_scale (rotate_vector c.rotation ⟨0, 1, 0⟩)
                    (dy * c.settings.pan_speed * c.distance)))
                (vec3_scale (rotate_vector c.rotation ⟨1, 0, 0⟩)
                  (dx * c.settings.pan_speed * c.distance)) }) ∧
    (c.is_pan = false → c.is_zoom = true →
      control_camera tr c dx dy =
        { c with
            distance :=
              if c.distance + dy * c.settings.zoom_speed * c.distance > c.distance_far_limit
              then c.distance_far_limit
              else if c.distance + dy * c.settings.zoom_speed * c.distance <
                  c.distance_near_limit
              then c.distance_near_limit
              else c.distance + dy * c.settings.zoom_speed * c.distance }) ∧
    (c.is_pan = false → c.is_zoom = false → c.is_orbit = true →
      control_camera tr c dx dy =
        { c with
            yaw := c.yaw + dx * c.settings.orbit_speed,
            pitch := c.pitch + dy * c.settings.orbit_speed * c.settings.pitch_speed,
            rotation := rotation_from_yaw_and_pitch tr
              (c.yaw + dx * c.settings.orbit_speed)
              (c.pitch + dy * c.settings.orbit_speed * c.settings.pitch_speed) }) ∧
    (c.is_pan = false → c.is_zoom = false → c.is_orbit = false →
      control_camera tr c dx dy = c) := by
  refine ⟨?_, ?_, ?_, ?_⟩
  · intro hp
    simp [control_camera, hp]
  · intro hp hz
    simp [control_camera, hp, hz]
  · intro hp hz ho
    simp [control_camera, hp, hz, ho]
  · intro hp hz ho
    simp [control_camera, hp, hz, ho]

/-- A state with every mode bit set (pan, zoom and orbit all active),
used by the C1 witness. -/
def cAll : OrbitZoomCamera :=
  { OrbitZoomCamera.new ⟨0, 0, 0⟩ OrbitZoomCameraSettings.default with
      mode := ⟨true, true, true, true, true, true⟩ }

/-- Witness for C1: with all flags set, only the pan effect occurs. -/
theorem control_camera_priority_witness :
    cAll.is_pan = true ∧
    control_camera trig0 cAll 1 1 =
      { cAll with
          target :=
            vec3_add
              (vec3_add cAll.target
                (vec3_scale (rotate_vector cAll.rotation ⟨0, 1, 0⟩)
                  (1 * cAll.settings.pan_speed * cAll.distance)))
              (vec3_scale (rotate_vector cAll.rotation ⟨1, 0, 0⟩)
                (1 * cAll.settings.pan_speed * cAll.distance)) } :=
  ⟨by decide, (control_camera_priority trig0 cAll 1 1).1 (by decide)⟩

/-! ### C2 : zoom clamps distance into the limits -/

/-- C2: when the zoom branch is taken, the new distance is
`distance + dy * zoom_speed * distance` clamped into
`[distance_near_limit, distance_far_limit]`, so the distance invariant
holds after every zoom update; every other branch of `control_camera`
leaves `distance` untouched (the zoom branch is the only place the limits
are enforced). -/
theorem zoom_clamps_distance (tr : Trig) (c : OrbitZoomCamera) (dx dy : ℚ)
    (hlim : c.distance_near_limit ≤ c.distance_far_limit) :
    (c.is_pan = false → c.is_zoom = true →
      (control_camera tr c dx dy).distance =
        (if c.distance + dy * c.settings.zoom_speed * c.distance > c.distance_far_limit
         then c.distance_far_limit
         else if c.distance + dy * c.settings.zoom_speed * c.distance < c.distance_near_limit
         then c.distance_near_limit
         else c.distance + dy * c.settings.zoom_speed * c.distance) ∧
      c.distance_near_limit ≤ (control_camera tr c dx dy).distance ∧
      (control_camera tr c dx dy).distance ≤ c.distance_far_limit) ∧
    ((c.is_pan = true ∨ c.is_zoom = false) →
      (control_camera tr c dx dy).distance = c.distance) := by
  constructor
  · intro hp hz
    have hres : (control_camera tr c dx dy).distance =
        (if c.distance + dy * c.settings.zoom_speed * c.distance > c.distance_far_limit
         then c.distance_far_limit
         else if c.distance + dy * c.settings.zoom_speed * c.distance < c.distance_near_limit
         then c.distance_near_limit
         else c.distance + dy * c.settings.zoom_speed * c.distance) := by
      simp [control_camera, hp, hz]
    refine ⟨hres, ?_, ?_⟩
    · rw [hres]
      split_ifs with h1 h2
      · exact hlim
      · exact le_refl _
      · linarith
    · rw [hres]
      split_ifs with h1 h2
      · exact le_refl _
      · exact hlim
      · linarith
  · intro h
    by_cases hp : c.is_pan = true
    · simp [control_camera, hp]
    · have hp' : c.is_pan = false := by simpa using hp
      have hz : c.is_zoom = false := by
        rcases h with h | h
        · exact absurd h hp
        · exact h
      simp only [control_camera, hp', hz]
      simp only [Bool.false_eq_true, if_false]
      split <;> rfl

/-- A state in which only the zoom action is active, for the C2 witness. -/
def cZoom : OrbitZoomCamera :=
  { OrbitZoomCamera.new ⟨0, 0, 0⟩ OrbitZoomCameraSettings.default with
      mode := ⟨false, true, false, false, true, false⟩ }

/-- Witness for C2 at a concrete zooming state. -/
theorem zoom_clamps_distance_witness :
    cZoom.distance_near_limit ≤ cZoom.distance_far_limit ∧
    ((control_camera trig0 cZoom 0 1).distance =
      (if cZoom.distance + 1 * cZoom.settings.zoom_speed * cZoom.distance >
            cZoom.distance_far_limit
       then cZoom.distance_far_limit
       else if cZoom.distance + 1 * cZoom.settings.zoom_speed * cZoom.distance <
            cZoom.distance_near_limit
       then cZoom.distance_near_limit
       else cZoom.distance + 1 * cZoom.settings.zoom_speed * cZoom.distance) ∧
      cZoom.distance_near_limit ≤ (control_camera trig0 cZoom 0 1).distance ∧
      (control_camera trig0 cZoom 0 1).distance ≤ cZoom.distance_far_limit) :=
  ⟨by decide, (zoom_clamps_distance trig0 cZoom 0 1 (by decide)).1 (by decide) (by decide)⟩

/-! ### C6 : construction -/

/-- C6: `new(target, settings)` pre-sets the modifier bit of exactly the
actions without a configured modifier key, starts with identity rotation,
distance 10 with limits 0.1/1000, and yaw/pitch 0; when all three modifier
keys are absent all three modifier bits are set and each action becomes
active given its button flag alone. -/
theorem new_initial_state (target : Vector3) (s : OrbitZoomCameraSettings) :
    (OrbitZoomCamera.new target s).target = target ∧
    (OrbitZoomCamera.new target s).settings = s ∧
    (OrbitZoomCamera.new target s).rotation = Quaternion.qid ∧
    (OrbitZoomCamera.new target s).distance = 10 ∧
    (OrbitZoomCamera.new target s).distance_near_limit = 0.1 ∧
    (OrbitZoomCamera.new target s).distance_far_limit = 1000 ∧
    (OrbitZoomCamera.new target s).yaw = 0 ∧
    (OrbitZoomCamera.new target s).pitch = 0 ∧
    (OrbitZoomCamera.new target s).mode.orbitButton = false ∧
    (OrbitZoomCamera.new target s).mode.zoomButton = false ∧
    (OrbitZoomCamera.new target s).mode.panButton = false ∧
    (OrbitZoomCamera.new target s).mode.orbitMod = s.orbit_mod.isNone ∧
    (OrbitZoomCamera.new target s).mode.zoomMod = s.zoom_mod.isNone ∧
    (OrbitZoomCamera.new target s).mode.panMod = s.pan_mod.isNone ∧
    (s.orbit_mod = none → s.zoom_mod = none → s.pan_mod = none →
      ((OrbitZoomCamera.new target s).mode.orbitMod = true ∧
       (OrbitZoomCamera.new target s).mode.zoomMod = true ∧
       (OrbitZoomCamera.new target s).mode.panMod = true ∧
       is_orbit { OrbitZoomCamera.new target s with
           mode := Mode.insert (OrbitZoomCamera.new target s).mode Mode.ORBIT_BUTTON } = true ∧
       is_zoom { OrbitZoomCamera.new target s with
           mode := Mode.insert (OrbitZoomCamera.new target s).mode Mode.ZOOM_BUTTON } = true ∧
       is_pan { OrbitZoomCamera.new target s with
           mode := Mode.insert (OrbitZoomCamera.new target s).mode Mode.PAN_BUTTON } = true)) := by
  cases horb : s.orbit_mod <;> cases hzo : s.zoom_mod <;> cases hpa : s.pan_mod <;>
    simp [OrbitZoomCamera.new, Mode.emptyMode, Mode.union, Mode.insert,
      is_orbit, is_zoom, is_pan, Mode.contains, Mode.ORBIT_BUTTON, Mode.ZOOM_BUTTON,
      Mode.PAN_BUTTON, Mode.ORBIT_MOD, Mode.ZOOM_MOD, Mode.PAN_MOD, horb, hzo, hpa] <;>
    norm_num [Rat.mkRat_eq_divInt, Rat.divInt_eq_div]

/-- Settings with no modifier configured for any action, for the C6 witness. -/
def sNoMods : OrbitZoomCameraSettings :=
  { OrbitZoomCameraSettings.default with pan_mod := none }

/-- Witness for C6: with all three modifiers absent, all three modifier
bits are pre-set and each button flag alone activates its action. -/
theorem new_initial_state_witness :
    (sNoMods.orbit_mod = none ∧ sNoMods.zoom_mod = none ∧ sNoMods.pan_mod = none) ∧
    ((OrbitZoomCamera.new ⟨0, 0, 0⟩ sNoMods).mode.orbitMod = true ∧
     (OrbitZoomCamera.new ⟨0, 0, 0⟩ sNoMods).mode.zoomMod = true ∧
     (OrbitZoomCamera.new ⟨0, 0, 0⟩ sNoMods).mode.panMod = true ∧
     is_orbit { OrbitZoomCamera.new ⟨0, 0, 0⟩ sNoMods with
         mode := Mode.insert (OrbitZoomCamera.new ⟨0, 0, 0⟩ sNoMods).mode
           Mode.ORBIT_BUTTON } = true ∧
     is_zoom { OrbitZoomCamera.new ⟨0, 0, 0⟩ sNoMods with
         mode := Mode.insert (OrbitZoomCamera.new ⟨0, 0, 0⟩ sNoMods).mode
           Mode.ZOOM_BUTTON } = true ∧
     is_pan { OrbitZoomCamera.new ⟨0, 0, 0⟩ sNoMods with
         mode := Mode.insert (OrbitZoomCamera.new ⟨0, 0, 0⟩ sNoMods).mode
           Mode.PAN_BUTTON } = true) :=
  ⟨⟨rfl, rfl, rfl⟩,
   (new_initial_state ⟨0, 0, 0⟩ sNoMods).2.2.2.2.2.2.2.2.2.2.2.2.2.2 rfl rfl rfl⟩

/-! ### C8 : orbit accumulation is additive and unbounded -/

/-- In the orbit branch, the yaw update is `yaw + dx * orbit_speed`. -/
theorem control_camera_orbit_yaw (tr : Trig) (c : OrbitZoomCamera) (dx dy : ℚ)
    (hp : c.is_pan = false) (hz : c.is_zoom = false) (ho : c.is_orbit = true) :
    (control_camera tr c dx dy).yaw = c.yaw + dx * c.settings.orbit_speed := by
  simp [control_camera, hp, hz, ho]

/-- The action predicates depend only on the mode bitset. -/
theorem action_flags_of_mode (c c' : OrbitZoomCamera) (hm : c'.mode = c.mode) :
    c'.is_pan = c.is_pan ∧ c'.is_zoom = c.is_zoom ∧ c'.is_orbit = c.is_orbit := by
  simp [is_pan, is_zoom, is_orbit, hm]

/-- Iterating `control_camera` never changes mode or settings. -/
theorem iterate_control_camera_frame (tr : Trig) (dx dy : ℚ) (c : OrbitZoomCamera) (n : ℕ) :
    ((fun s => control_camera tr s dx dy)^[n] c).mode = c.mode ∧
    ((fun s => control_camera tr s dx dy)^[n] c).settings = c.settings := by
  induction n with
  | zero => exact ⟨rfl, rfl⟩
  | succ n ih =>
    rw [Function.iterate_succ_apply']
    exact ⟨(control_camera_mode tr _ dx dy).trans ih.1,
           (control_camera_settings tr _ dx dy).trans ih.2⟩

/-- C8: when the orbit branch is taken, yaw accumulation is additive —
two calls with `dx` give the same yaw as one call with `2*dx` — and over
`n` iterated calls yaw grows by exactly `n * dx * orbit_speed`, with no
clamping or wraparound. -/
theorem orbit_additive (tr : Trig) (c : OrbitZoomCamera) (dx : ℚ)
    (hp : c.is_pan = false) (hz : c.is_zoom = false) (ho : c.is_orbit = true) :
    (control_camera tr (control_camera tr c dx 0) dx 0).yaw =
      (control_camera tr c (2 * dx) 0).yaw ∧
    ∀ n : ℕ, ((fun s => control_camera tr s dx 0)^[n] c).yaw =
      c.yaw + (n : ℚ) * (dx * c.settings.orbit_speed) := by
  have hyaw : ∀ c' : OrbitZoomCamera, c'.mode = c.mode → c'.settings = c.settings →
      (control_camera tr c' dx 0).yaw = c'.yaw + dx * c.settings.orbit_speed := by
    intro c' hm hs
    obtain ⟨h1, h2, h3⟩ := action_flags_of_mode c c' hm
    rw [control_camera_orbit_yaw tr c' dx 0 (h1.trans hp) (h2.trans hz) (h3.trans ho), hs]
  constructor
  · have e1 := hyaw c rfl rfl
    have e2 := hyaw (control_camera tr c dx 0)
      (control_camera_mode tr c dx 0) (control_camera_settings tr c dx 0)
    rw [e2, e1, control_camera_orbit_yaw tr c (2 * dx) 0 hp hz ho]
    ring
  · intro n
    induction n with
    | zero => simp
    | succ n ih =>
      rw [Function.iterate_succ_apply']
      obtain ⟨hm, hs⟩ := iterate_control_camera_frame tr dx 0 c n
      rw [hyaw _ hm hs, ih]
      push_cast
      ring

/-- A state in which only the orbit action is active, for the C8 witness. -/
def cOrbit : OrbitZoomCamera :=
  { OrbitZoomCamera.new ⟨0, 0, 0⟩ OrbitZoomCameraSettings.default with
      mode := ⟨true, false, false, true, false, false⟩ }

/-- Witness for C8 at a concrete orbiting state, with the iterated
accumulation instantiated at three calls. -/
theorem orbit_additive_witness :
    (cOrbit.is_pan = false ∧ cOrbit.is_zoom = false ∧ cOrbit.is_orbit = true) ∧
    (control_camera trig0 (control_camera trig0 cOrbit 1 0) 1 0).yaw =
      (control_camera trig0 cOrbit (2 * 1) 0).yaw ∧
    ((fun s => control_camera trig0 s 1 0)^[3] cOrbit).yaw =
      cOrbit.yaw + ((3 : ℕ) : ℚ) * (1 * cOrbit.settings.orbit_speed) :=
  ⟨⟨by decide, by decide, by decide⟩,
   (orbit_additive trig0 cOrbit 1 (by decide) (by decide) (by decide)).1,
   (orbit_additive trig0 cOrbit 1 (by decide) (by decide) (by decide)).2 3⟩

/-! ### C5 : press and release maintain single mode bits -/

/-- After a press event, each mode bit is the old bit or-ed with whether
the pressed input matches that bit's binding. -/
theorem press_mode_spec (tr : Trig) (c : OrbitZoomCamera) (x : Button) :
    (event tr c (Event.Press x)).mode =
      ⟨c.mode.orbitButton || decide (x = Button.Mouse c.settings.orbit_button),
       c.mode.zoomButton || decide (x = Button.Mouse c.settings.zoom_button),
       c.mode.panButton || decide (x = Button.Mouse c.settings.pan_button),
       c.mode.orbitMod || decide (some x = c.settings.orbit_mod.map Button.Keyboard),
       c.mode.zoomMod || decide (some x = c.settings.zoom_mod.map Button.Keyboard),
       c.mode.panMod || decide (some x = c.settings.pan_mod.map Button.Keyboard)⟩ := by
  simp only [event]
  split_ifs with h1 h2 h3 h4 h5 h6 <;>
    simp_all [Mode.insert, Mode.union, Mode.ORBIT_BUTTON, Mode.ZOOM_BUTTON,
      Mode.PAN_BUTTON, Mode.ORBIT_MOD, Mode.ZOOM_MOD, Mode.PAN_MOD]

/-- After a release event, each mode bit is the old bit and-ed with the
pressed input not matching that bit's binding. -/
theorem release_mode_spec (tr : Trig) (c : OrbitZoomCamera) (x : Button) :
    (event tr c (Event.Release x)).mode =
      ⟨c.mode.orbitButton && !decide (x = Button.Mouse c.settings.orbit_button),
       c.mode.zoomButton && !decide (x = Button.Mouse c.settings.zoom_button),
       c.mode.panButton && !decide (x = Button.Mouse c.settings.pan_button),
       c.mode.orbitMod && !decide (some x = c.settings.orbit_mod.map Button.Keyboard),
       c.mode.zoomMod && !decide (some x = c.settings.zoom_mod.map Button.Keyboard),
       c.mode.panMod && !decide (some x = c.settings.pan_mod.map Button.Keyboard)⟩ := by
  simp only [event]
  split_ifs with h1 h2 h3 h4 h5 h6 <;>
    simp_all [Mode.remove, Mode.ORBIT_BUTTON, Mode.ZOOM_BUTTON,
      Mode.PAN_BUTTON, Mode.ORBIT_MOD, Mode.ZOOM_MOD, Mode.PAN_MOD]

/-- C5: a press event sets the mode bit of every binding the input
matches and a release clears it; an input matching no binding leaves the
whole state unchanged, and no field but `mode` is ever touched. -/
theorem press_release_event (tr : Trig) (c : OrbitZoomCamera) (x : Button) :
    ((¬x = Button.Mouse c.settings.orbit_button) →
     (¬x = Button.Mouse c.settings.pan_button) →
     (¬x = Button.Mouse c.settings.zoom_button) →
     (¬some x = c.settings.orbit_mod.map Button.Keyboard) →
     (¬some x = c.settings.pan_mod.map Button.Keyboard) →
     (¬some x = c.settings.zoom_mod.map Button.Keyboard) →
      event tr c (Event.Press x) = c ∧ event tr c (Event.Release x) = c) ∧
    ((event tr c (Event.Press x)).mode.orbitButton = true ↔
      (c.mode.orbitButton = true ∨ x = Button.Mouse c.settings.orbit_button)) ∧
    ((event tr c (Event.Press x)).mode.zoomButton = true ↔
      (c.mode.zoomButton = true ∨ x = Button.Mouse c.settings.zoom_button)) ∧
    ((event tr c (Event.Press x)).mode.panButton = true ↔
      (c.mode.panButton = true ∨ x = Button.Mouse c.settings.pan_button)) ∧
    ((event tr c (Event.Press x)).mode.orbitMod = true ↔
      (c.mode.orbitMod = true ∨ some x = c.settings.orbit_mod.map Button.Keyboard)) ∧
    ((event tr c (Event.Press x)).mode.zoomMod = true ↔
      (c.mode.zoomMod = true ∨ some x = c.settings.zoom_mod.map Button.Keyboard)) ∧
    ((event tr c (Event.Press x)).mode.panMod = true ↔
      (c.mode.panMod = true ∨ some x = c.settings.pan_mod.map Button.Keyboard)) ∧
    ((event tr c (Event.Release x)).mode.orbitButton = true ↔
      (c.mode.orbitButton = true ∧ ¬x = Button.Mouse c.settings.orbit_button)) ∧
    ((event tr c (Event.Release x)).mode.zoomButton = true ↔
      (c.mode.zoomButton = true ∧ ¬x = Button.Mouse c.settings.zoom_button)) ∧
    ((event tr c (Event.Release x)).mode.panButton = true ↔
      (c.mode.panButton = true ∧ ¬x = Button.Mouse c.settings.pan_button)) ∧
    ((event tr c (Event.Release x)).mode.orbitMod = true ↔
      (c.mode.orbitMod = true ∧ ¬some x = c.settings.orbit_mod.map Button.Keyboard)) ∧
    ((event tr c (Event.Release x)).mode.zoomMod = true ↔
      (c.mode.zoomMod = true ∧ ¬some x = c.settings.zoom_mod.map Button.Keyboard)) ∧
    ((event tr c (Event.Release x)).mode.panMod = true ↔
      (c.mode.panMod = true ∧ ¬some x = c.settings.pan_mod.map Button.Keyboard)) ∧
    (event tr c (Event.Press x)).target = c.target ∧
    (event tr c (Event.Press x)).rotation = c.rotation ∧
    (event tr c (Event.Press x)).pitch = c.pitch ∧
    (event tr c (Event.Press x)).yaw = c.yaw ∧
    (event tr c (Event.Press x)).distance = c.distance ∧
    (event tr c (Event.Press x)).distance_near_limit = c.distance_near_limit ∧
    (event tr c (Event.Press x)).distance_far_limit = c.distance_far_limit ∧
    (event tr c (Event.Press x)).settings = c.settings ∧
    (event tr c (Event.Release x)).target = c.target ∧
    (event tr c (Event.Release x)).rotation = c.rotation ∧
    (event tr c (Event.Release x)).pitch = c.pitch ∧
    (event tr c (Event.Release x)).yaw = c.yaw ∧
    (event tr c (Event.Release x)).distance = c.distance ∧
    (event tr c (Event.Release x)).distance_near_limit = c.distance_near_limit ∧
    (event tr c (Event.Release x)).distance_far_limit = c.distance_far_limit ∧
    (event tr c (Event.Release x)).settings = c.settings := by
  constructor
  · intro h1 h2 h3 h4 h5 h6
    constructor <;> simp [event, h1, h2, h3, h4, h5, h6]
  · simp only [press_mode_spec, release_mode_spec]
    refine ⟨?_, ?_, ?_, ?_, ?_, ?_, ?_, ?_, ?_, ?_, ?_, ?_,
      rfl, rfl, rfl, rfl, rfl, rfl, rfl, rfl,
      rfl, rfl, rfl, rfl, rfl, rfl, rfl, rfl⟩ <;>
      simp

/-- The controller freshly constructed with the default settings. -/
def cNew : OrbitZoomCamera :=
  OrbitZoomCamera.new ⟨0, 0, 0⟩ OrbitZoomCameraSettings.default

/-- Witness for C5: a controller-pad input matches no binding of the
default settings and both press and release leave the state unchanged. -/
theorem press_release_event_witness :
    ((¬Button.Controller 0 = Button.Mouse cNew.settings.orbit_button) ∧
     (¬Button.Controller 0 = Button.Mouse cNew.settings.pan_button) ∧
     (¬Button.Controller 0 = Button.Mouse cNew.settings.zoom_button) ∧
     (¬some (Button.Controller 0) = cNew.settings.orbit_mod.map Button.Keyboard) ∧
     (¬some (Button.Controller 0) = cNew.settings.pan_mod.map Button.Keyboard) ∧
     (¬some (Button.Controller 0) = cNew.settings.zoom_mod.map Button.Keyboard)) ∧
    (event trig0 cNew (Event.Press (Button.Controller 0)) = cNew ∧
     event trig0 cNew (Event.Release (Button.Controller 0)) = cNew) :=
  ⟨⟨by decide, by decide, by decide, by decide, by decide, by decide⟩,
   (press_release_event trig0 cNew (Button.Controller 0)).1
     (by decide) (by decide) (by decide) (by decide) (by decide) (by decide)⟩

/-! ### C3 / C10 : the scroll default-mode restoration -/

/-- On booleans, removing `b` right after or-ing it in clears `b`. -/
theorem bool_andnot_of_disjoint :
    ∀ a b : Bool, ((a && b) = false) → ((a && !b) = a) := by decide

/-- On booleans, `(a & !b) & b = false`. -/
theorem bool_andnot_inter : ∀ a b : Bool, (((a && !b) && b) = false) := by decide

/-- Removing a disjoint flag set is a no-op. -/
theorem mode_remove_eq_of_disjoint (a b : Mode)
    (h : Mode.inter a b = Mode.emptyMode) : Mode.remove a b = a := by
  have h1 := congrArg Mode.orbitButton h
  have h2 := congrArg Mode.zoomButton h
  have h3 := congrArg Mode.panButton h
  have h4 := congrArg Mode.orbitMod h
  have h5 := congrArg Mode.zoomMod h
  have h6 := congrArg Mode.panMod h
  simp only [Mode.inter, Mode.emptyMode] at h1 h2 h3 h4 h5 h6
  ext
  · exact bool_andnot_of_disjoint _ _ h1
  · exact bool_andnot_of_disjoint _ _ h2
  · exact bool_andnot_of_disjoint _ _ h3
  · exact bool_andnot_of_disjoint _ _ h4
  · exact bool_andnot_of_disjoint _ _ h5
  · exact bool_andnot_of_disjoint _ _ h6

/-- After removing `b`, nothing of `b` is left. -/
theorem mode_inter_remove (a b : Mode) :
    Mode.inter (Mode.remove a b) b = Mode.emptyMode := by
  ext <;> exact bool_andnot_inter _ _

/-- What a scroll event does when the modifier check reports no modifier
held: boost the mode by `scroll_mode`, run `control_camera`, and remove
the `scroll_mode` bits afterwards unless they were all present before. -/
theorem scroll_event_characterization (tr : Trig) (c : OrbitZoomCamera) (dx dy : ℚ)
    (hmod : mod_key_pressed c = false) :
    event tr c (Event.MouseScroll dx dy) =
      (if Mode.contains c.mode c.settings.scroll_mode then
        control_camera tr { c with mode := Mode.insert c.mode c.settings.scroll_mode } dx dy
      else
        { control_camera tr { c with mode := Mode.insert c.mode c.settings.scroll_mode } dx dy with
            mode := Mode.remove
              (control_camera tr { c with mode := Mode.insert c.mode c.settings.scroll_mode } dx dy).mode
              (control_camera tr { c with mode := Mode.insert c.mode c.settings.scroll_mode } dx dy).settings.scroll_mode }) := by
  cases hcon : Mode.contains c.mode c.settings.scroll_mode <;>
    simp [event, hmod, hcon]

/-- C3 (amended): when the modifier check reports no modifier held and the
prior mode contained either all of the `scroll_mode` bits or none of them,
the scroll handler temporarily enables the `scroll_mode` bits, applies
`control_camera` with them enabled, and afterwards the mode bitset equals
its value from before the event. -/
theorem scroll_restore_amended (tr : Trig) (c : OrbitZoomCamera) (dx dy : ℚ)
    (hmod : mod_key_pressed c = false)
    (hok : Mode.contains c.mode c.settings.scroll_mode = true ∨
           Mode.inter c.mode c.settings.scroll_mode = Mode.emptyMode) :
    (event tr c (Event.MouseScroll dx dy)).mode = c.mode ∧
    (event tr c (Event.MouseScroll dx dy)).target =
      (control_camera tr { c with mode := Mode.insert c.mode c.settings.scroll_mode } dx dy).target ∧
    (event tr c (Event.MouseScroll dx dy)).distance =
      (control_camera tr { c with mode := Mode.insert c.mode c.settings.scroll_mode } dx dy).distance ∧
    (event tr c (Event.MouseScroll dx dy)).yaw =
      (control_camera tr { c with mode := Mode.insert c.mode c.settings.scroll_mode } dx dy).yaw ∧
    (event tr c (Event.MouseScroll dx dy)).pitch =
      (control_camera tr { c with mode := Mode.insert c.mode c.settings.scroll_mode } dx dy).pitch ∧
    (event tr c (Event.MouseScroll dx dy)).rotation =
      (control_camera tr { c with mode := Mode.insert c.mode c.settings.scroll_mode } dx dy).rotation := by
  rw [scroll_event_characterization tr c dx dy hmod]
  rcases Bool.eq_false_or_eq_true (Mode.contains c.mode c.settings.scroll_mode) with
    hcon | hcon
  · rw [hcon, if_pos rfl]
    refine ⟨?_, rfl, rfl, rfl, rfl, rfl⟩
    rw [control_camera_mode]
    exact mode_union_eq_left _ _ hcon
  · have hdisj : Mode.inter c.mode c.settings.scroll_mode = Mode.emptyMode := by
      rcases hok with h | h
      · rw [hcon] at h; cases h
      · exact h
    rw [hcon, if_neg Bool.false_ne_true]
    refine ⟨?_, rfl, rfl, rfl, rfl, rfl⟩
    rw [control_camera_mode, control_camera_settings]
    show Mode.remove (Mode.union c.mode c.settings.scroll_mode) c.settings.scroll_mode = c.mode
    rw [mode_remove_union]
    exact mode_remove_eq_of_disjoint _ _ hdisj

/-- Settings whose scroll mode spans two bits (zoom button and zoom
modifier), with the zoom modifier configured; used for C3/C10. -/
def sScrollZM : OrbitZoomCameraSettings :=
  { OrbitZoomCameraSettings.default with
      zoom_mod := some ⟨10⟩
      scroll_mode := Mode.union Mode.ZOOM_BUTTON Mode.ZOOM_MOD }

/-- A reachable state holding a proper non-empty subset of the scroll-mode
bits (the zoom button is held, the zoom modifier is not). -/
def cexC3 : OrbitZoomCamera :=
  { OrbitZoomCamera.new ⟨0, 0, 0⟩ sScrollZM with
      mode := ⟨false, true, false, true, false, false⟩ }

/-- Counterexample to C3 as stated: a scroll event with no modifier held
does not restore the mode bitset when it held a proper non-empty subset of
the scroll-mode bits (here the held zoom button bit is lost). -/
theorem scroll_restore_counterexample :
    mod_key_pressed cexC3 = false ∧
    (event trig0 cexC3 (Event.MouseScroll 0 1)).mode ≠ cexC3.mode := by
  constructor
  · decide
  · decide

/-- A state disjoint from the scroll-mode bits, for the C3 witness. -/
def cexC3disj : OrbitZoomCamera :=
  { OrbitZoomCamera.new ⟨0, 0, 0⟩ sScrollZM with
      mode := ⟨false, false, false, true, false, false⟩ }

/-- Witness for the amended C3 at a state holding none of the scroll bits. -/
theorem scroll_restore_amended_witness :
    (mod_key_pressed cexC3disj = false ∧
     Mode.inter cexC3disj.mode cexC3disj.settings.scroll_mode = Mode.emptyMode) ∧
    (event trig0 cexC3disj (Event.MouseScroll 0 1)).mode = cexC3disj.mode :=
  ⟨⟨by decide, by decide⟩,
   (scroll_restore_amended trig0 cexC3disj 0 1 (by decide) (Or.inr (by decide))).1⟩

/-- C10: after a scroll with the modifier check reporting no modifier
held, bits are removed only when the prior mode did not contain every
`scroll_mode` bit; then every `scroll_mode` bit is cleared — including
bits that were already set before the event — while a mode containing all
scroll bits is left untouched. -/
theorem scroll_subset_removal (tr : Trig) (c : OrbitZoomCamera) (dx dy : ℚ)
    (hmod : mod_key_pressed c = false) :
    (Mode.contains c.mode c.settings.scroll_mode = true →
      (event tr c (Event.MouseScroll dx dy)).mode = c.mode) ∧
    (Mode.contains c.mode c.settings.scroll_mode = false →
      (event tr c (Event.MouseScroll dx dy)).mode =
        Mode.remove c.mode c.settings.scroll_mode ∧
      Mode.inter (event tr c (Event.MouseScroll dx dy)).mode
        c.settings.scroll_mode = Mode.emptyMode) := by
  rw [scroll_event_characterization tr c dx dy hmod]
  constructor
  · intro hcon
    rw [hcon, if_pos rfl, control_camera_mode]
    exact mode_union_eq_left _ _ hcon
  · intro hcon
    rw [hcon, if_neg Bool.false_ne_true]
    constructor
    · rw [control_camera_mode, control_camera_settings]
      show Mode.remove (Mode.union c.mode c.settings.scroll_mode) c.settings.scroll_mode =
        Mode.remove c.mode c.settings.scroll_mode
      exact mode_remove_union _ _
    · rw [control_camera_mode, control_camera_settings]
      show Mode.inter
        (Mode.remove (Mode.union c.mode c.settings.scroll_mode) c.settings.scroll_mode)
        c.settings.scroll_mode = Mode.emptyMode
      rw [mode_remove_union]
      exact mode_inter_remove _ _

/-- A state holding the zoom-button scroll bit plus unrelated modifier
bits, for the C10 witness. -/
def cexC10 : OrbitZoomCamera :=
  { OrbitZoomCamera.new ⟨0, 0, 0⟩ sScrollZM with
      mode := ⟨false, true, false, true, false, true⟩ }

/-- Witness for C10: with a proper subset of the scroll bits held, the
handler clears every scroll bit, including the previously held one. -/
theorem scroll_subset_removal_witness :
    (mod_key_pressed cexC10 = false ∧
     Mode.contains cexC10.mode cexC10.settings.scroll_mode = false) ∧
    ((event trig0 cexC10 (Event.MouseScroll 0 1)).mode =
       Mode.remove cexC10.mode cexC10.settings.scroll_mode ∧
     Mode.inter (event trig0 cexC10 (Event.MouseScroll 0 1)).mode
       cexC10.settings.scroll_mode = Mode.emptyMode) :=
  ⟨⟨by decide, by decide⟩,
   (scroll_subset_removal trig0 cexC10 0 1 (by decide)).2 (by decide)⟩

end CameraControllers
